import Mathlib

/-!
Shallow embedding of the paper-listing subsystem of `routes/papers.js`:
the result cache (`getCacheKey` / `getCachedQuery` / `setCachedQuery`),
the search-event logger (`makeDedupeKey` / `logSearchToRecommender`),
the recommendation fetcher (`getRecommendations` over `callFetch`), and
the feed-composing route handlers (`GET /` and `GET /search/query`).

JavaScript `Map` objects are embedded as association lists in insertion
order (a `Map.set` on an existing key updates the value in place and keeps
the original position; `Map.delete` removes the unique entry for the key,
embedded as removal of the first matching entry; iteration order is
insertion order).  JavaScript numbers on these paths are integers, embedded
as `Int`; `parseInt(x, 10) || d` is embedded by passing the parse result as
`Option Int` (`none` for `NaN`, i.e. an absent or non-numeric parameter)
and applying JS truthiness (`0` and `NaN` are falsy).  Network and database
collaborators are opaque environment functions supplied to the handlers.
-/

namespace Papers

/-- JS truthiness for an optional string: `undefined` and `""` are falsy. -/
def jsTruthyStr (s : Option String) : Bool :=
  match s with
  | none => false
  | some t => !(t == "")

/-- Embeds `parseInt(q, 10) || d`: `none` stands for `NaN` (absent or
non-numeric input); `NaN` and `0` are falsy, so both yield the default. -/
def jsor (n : Option Int) (d : Int) : Int :=
  match n with
  | none => d
  | some v => if v == 0 then d else v

/-- `Array.prototype.slice(start, stop)` on a list, with the JS handling of
negative and out-of-range indices. -/
def jsSlice (l : List α) (start stop : Int) : List α :=
  let len : Int := l.length
  let s : Int := if start < 0 then max (len + start) 0 else min start len
  let e : Int := if stop < 0 then max (len + stop) 0 else min stop len
  (l.drop s.toNat).take (e - s).toNat

/-- `Math.ceil(a / b)` for integer operands, as used for the `pages` count
(`b = 0` gives `Infinity` in JS and never occurs on the embedded paths;
it is mapped to `0` here for totality). -/
def jsCeilDiv (a b : Int) : Int :=
  if b == 0 then 0 else -((-a).fdiv b)

/-- Lookup in a JS `Map` embedded as an association list (`Map.get`). -/
def mapGet (m : List (String × α)) (k : String) : Option α :=
  (m.find? (fun e => e.1 == k)).map (·.2)

/-- `Map.set`: update in place when the key is present (keeping its
insertion position), otherwise append at the end. -/
def mapSet (m : List (String × α)) (k : String) (v : α) : List (String × α) :=
  if m.any (fun e => e.1 == k) then
    m.map (fun e => if e.1 == k then (k, v) else e)
  else
    m ++ [(k, v)]

/-- `Map.delete`: remove the entry for the key (keys are unique in a JS
`Map`, so removing the first matching entry is exact). -/
def mapDelete (m : List (String × α)) (k : String) : List (String × α) :=
  m.eraseP (fun e => e.1 == k)

end Papers

namespace Papers

/-! ## Search-event logger (`routes/papers.js` lines 63-151) -/

/-- One element of a parsed `recommendations` array. -/
structure RecEntry where
  paper_id : Int
deriving DecidableEq

/-- Outcome of one `callFetch` invocation, as seen by its callers: the
`ok` flag, the HTTP status, and the response body.  The body is carried in
already-parsed form (see `RecBody`), embedding the external `JSON.parse`. -/
inductive RecBody
  /-- `JSON.parse(result.body)` throws. -/
  | unparsable : RecBody
  /-- Parses, but `data && data.recommendations` is falsy. -/
  | objNoRecs : RecBody
  /-- Parses to an object whose `recommendations` field is an array of
  entries carrying `paper_id`. -/
  | objRecs (entries : List RecEntry) : RecBody
deriving DecidableEq

structure CallRes where
  ok : Bool
  status : Int
  body : RecBody
deriving DecidableEq

/-- `makeDedupeKey(userId, query)`: template literal
with JS falsiness of `userId` (`null`, `undefined` and `0` all give
`'anon'`). -/
def makeDedupeKey (userId : Option Int) (query : String) : String :=
  (match userId with
   | some u => if u == 0 then "anon" else toString u
   | none => "anon") ++ "::" ++ query

/-- The structured event posted to the analytics sink. -/
structure SearchPayload where
  user_id : Option Int
  query : String
  user_agent : Option String
  client_ip : Option String
  timestamp : Int
deriving DecidableEq

structure LogOutcome where
  ok : Bool
  skipped : Bool
  retried : Bool
deriving DecidableEq

/-- Result of one `logSearchToRecommender` run: its returned outcome, the
outbound HTTP calls it placed (in order), and the dedupe map afterwards. -/
structure LogRun where
  outcome : LogOutcome
  calls : List SearchPayload
  state : List (String × Int)
deriving DecidableEq

/-- `logSearchToRecommender(userId, query, meta)` (lines 112-151).  The
dedupe map `st` and the clock `now` are passed explicitly; `send1` and
`send2` are the outcomes the network would give to the first and the
retried `callFetch`.  The `finally` block only schedules a detached
cleanup timer (see `cleanupDedupe`), which is not part of the synchronous
result. -/
def logSearchToRecommender (st : List (String × Int)) (now : Int)
    (userId : Option Int) (query : String) (ua ip : Option String)
    (send1 send2 : CallRes) : LogRun :=
  let key := makeDedupeKey userId query
  -- `if (last && (Date.now() - last) < LOG_DEDUPE_TTL)`: a stored 0 is falsy
  let suppressed :=
    match mapGet st key with
    | some last => last != 0 && (now - last < 30000)
    | none => false
  if suppressed then
    { outcome := { ok := true, skipped := true, retried := false },
      calls := [], state := st }
  else
    let st1 := mapSet st key now
    let payload : SearchPayload :=
      { user_id := match userId with
                   | some u => if u == 0 then none else some u
                   | none => none,
        query := query, user_agent := ua, client_ip := ip, timestamp := now }
    if send1.ok then
      { outcome := { ok := true, skipped := false, retried := false },
        calls := [payload], state := st1 }
    else if send2.ok then
      { outcome := { ok := true, skipped := false, retried := true },
        calls := [payload, payload], state := st1 }
    else
      { outcome := { ok := false, skipped := false, retried := false },
        calls := [payload, payload], state := st1 }

/-- The lazy cleanup scheduled (detached) from the `finally` block: purge
dedupe entries older than four dedupe windows. -/
def cleanupDedupe (st : List (String × Int)) (now : Int) : List (String × Int) :=
  st.filter (fun e => !(e.2 < now - 30000 * 4))

end Papers

namespace Papers

/-! Small association-list lemmas used by the logger and cache proofs. -/

theorem mapGet_eq_none_any (m : List (String × α)) (k : String)
    (h : mapGet m k = none) : m.any (fun e => e.1 == k) = false := by
  induction m with
  | nil => rfl
  | cons x xs ih =>
    simp only [mapGet, List.find?] at h
    simp only [List.any_cons]
    cases hx : (x.1 == k) with
    | true => simp [hx] at h
    | false =>
      simp only [hx, Bool.false_or]
      exact ih (by simpa [mapGet, hx] using h)

theorem mapGet_append_self (m : List (String × α)) (k : String) (v : α)
    (h : mapGet m k = none) : mapGet (m ++ [(k, v)]) k = some v := by
  induction m with
  | nil => simp [mapGet]
  | cons x xs ih =>
    simp only [mapGet, List.find?] at h ⊢
    cases hx : (x.1 == k) with
    | true => simp [hx] at h
    | false =>
      simp only [hx] at h ⊢
      exact ih h

theorem mapSet_fresh (m : List (String × α)) (k : String) (v : α)
    (h : mapGet m k = none) : mapSet m k v = m ++ [(k, v)] := by
  unfold mapSet
  rw [mapGet_eq_none_any m k h]
  simp

theorem mapGet_mapSet_fresh (m : List (String × α)) (k : String) (v : α)
    (h : mapGet m k = none) : mapGet (mapSet m k v) k = some v := by
  rw [mapSet_fresh m k v h]
  exact mapGet_append_self m k v h

end Papers

namespace Papers

/-! ## Recommendation fetcher (`routes/papers.js` lines 71-110, 157-182) -/

inductive HttpMethod
  | get | post
deriving DecidableEq

/-- Shape of one outbound HTTP call issued through `callFetch`. -/
structure OutboundReq where
  url : String
  method : HttpMethod
  timeout : Int
deriving DecidableEq

/-- The `options` argument of `callFetch`. -/
structure CallOptions where
  method : Option HttpMethod := none
  timeout : Option Int := none

/-- The request `callFetch(url, body, options)` issues:
`const { method = 'POST', timeout = 3000 } = options`. -/
def callFetchRequest (url : String) (opts : CallOptions) : OutboundReq :=
  { url := url, method := opts.method.getD .post, timeout := opts.timeout.getD 3000 }

/-- URL built by `getRecommendations`:
`RECOMMENDER_URL.replace('/interaction/search', '/recommend')` with
`user_id` appended only when `userId` is truthy, then `top_n`. -/
def recommendUrl (userId : Option Int) (limit : Int) : String :=
  "http://127.0.0.1:8000/api/recommend?" ++
  (match userId with
   | some u => if u == 0 then "" else "user_id=" ++ toString u ++ "&"
   | none => "") ++
  "top_n=" ++ toString limit

/-- `getRecommendations(userId, limit)` (lines 157-182), with the network
abstracted as `net`.  A non-`ok` result, an unparsable body, or a body
without a truthy `recommendations` field all yield `[]`; otherwise the
`paper_id` of each entry is returned, in order. -/
def getRecommendations (net : OutboundReq → CallRes) (userId : Option Int)
    (limit : Int) : List Int :=
  let req := callFetchRequest (recommendUrl userId limit)
    { method := some .get, timeout := some 5000 }
  let result := net req
  if !result.ok then []
  else
    match result.body with
    | .objRecs entries => entries.map (·.paper_id)
    | _ => []

end Papers

namespace Papers

/-! ## Result cache (`routes/papers.js` lines 30-55, 192-194) -/

/-- One row of the listing result set (`Paper_ID` plus the remaining
selected columns, opaque here). -/
structure Paper where
  Paper_ID : Int
  payload : String
deriving DecidableEq

structure Pagination where
  page : Int
  limit : Int
  total : Int
  pages : Int
deriving DecidableEq

/-- The `data` object of a listing response.  `isRecommendation := none`
embeds a response object in which the field is absent (the early
end-of-feed return and the dedicated search endpoint omit it). -/
structure RespData where
  papers : List Paper
  pagination : Pagination
  isRecommendation : Option Bool
deriving DecidableEq

structure ListResponse where
  success : Bool
  message : String
  data : RespData
deriving DecidableEq

structure CacheEntry where
  data : ListResponse
  timestamp : Int
deriving DecidableEq

/-- `queryCache`, in `Map` insertion order. -/
abbrev Cache := List (String × CacheEntry)

/-- A scalar inside the object passed to `getCacheKey`. -/
inductive KeyVal
  | num (n : Int)
  | str (s : String)
deriving DecidableEq

/-- `JSON.stringify` escaping for the string characters that occur on
these paths. -/
def jsonEscChar (c : Char) : String :=
  if c == '"' then "\\\""
  else if c == '\\' then "\\\\"
  else if c == '\n' then "\\n"
  else if c == '\r' then "\\r"
  else if c == '\t' then "\\t"
  else String.singleton c

def jsonEsc (s : String) : String :=
  String.join (s.toList.map jsonEscChar)

def jsonStr (s : String) : String :=
  "\"" ++ jsonEsc s ++ "\""

def renderKeyVal : KeyVal → String
  | .num n => toString n
  | .str s => jsonStr s

/-- `getCacheKey(params) = JSON.stringify(params)` for a flat object given
as named fields in literal order; a field whose value is `undefined`
(`none`) is dropped by `JSON.stringify`. -/
def getCacheKey (fields : List (String × Option KeyVal)) : String :=
  "\x7b" ++
    String.intercalate ","
      (fields.filterMap (fun f => f.2.map (fun v => jsonStr f.1 ++ ":" ++ renderKeyVal v))) ++
  "\x7d"

/-- The key object of the main listing route (line 192):
`{ page, limit, fieldId, search, userId: req.user ? req.user.userId : 'anon' }`. -/
def listCacheKey (page limit : Int) (fieldId search : Option String)
    (userKey : KeyVal) : String :=
  getCacheKey
    [("page", some (.num page)), ("limit", some (.num limit)),
     ("fieldId", fieldId.map .str), ("search", search.map .str),
     ("userId", some userKey)]

/-- The key object of the dedicated search route (line 454):
`{ search: query, page, limit }`. -/
def searchCacheKey (query : String) (page limit : Int) : String :=
  getCacheKey
    [("search", some (.str query)), ("page", some (.num page)),
     ("limit", some (.num limit))]

/-- `getCachedQuery(key)` (lines 37-46): a hit only within the 60s TTL;
an expired entry is deleted as a side effect (second component: the cache
afterwards). -/
def getCachedQuery (now : Int) (c : Cache) (key : String) :
    Option ListResponse × Cache :=
  match mapGet c key with
  | none => (none, c)
  | some e =>
    if now - e.timestamp < 60000 then (some e.data, c)
    else (none, mapDelete c key)

/-- `setCachedQuery(key, data)` (lines 48-55): store with the current
timestamp, then, if the size exceeds 200, delete the first key in
iteration (= insertion) order. -/
def setCachedQuery (c : Cache) (key : String) (data : ListResponse)
    (now : Int) : Cache :=
  let c1 := mapSet c key { data := data, timestamp := now }
  if c1.length > 200 then
    match c1.head? with
    | some e => mapDelete c1 e.1
    | none => c1
  else c1

end Papers

namespace Papers

/-! ## Feed composition (`routes/papers.js` lines 184-413, 415-553) -/

/-- `new Map(papers.map(p => [p.Paper_ID, p])).get(id)`: construction in
list order keeps the last entry per key, hence lookup on the reversed
list. -/
def paperMapGet (papers : List Paper) (id : Int) : Option Paper :=
  papers.reverse.find? (fun p => p.Paper_ID == id)

/-- Lines 357-365: `pagedIds.map(id => paperMap.get(id)).filter(p => p)`,
i.e. re-sort the fetched records into the exact order of the requested id
slice, dropping ids that resolved to no record. -/
def reorderPapers (pagedIds : List Int) (papers : List Paper) : List Paper :=
  pagedIds.filterMap (paperMapGet papers)

/-- One detached (fire-and-forget, never awaited) invocation of
`logSearchToRecommender` spawned by a route handler. -/
structure LogTask where
  userId : Option Int
  query : String
deriving DecidableEq

/-- The collaborators and mutable surroundings of one handler run: the
clock, the cache contents, the recommender network, and the data store
(batch lookup by ids; filtered/sorted offset page plus its count; keyword
search page plus its count). -/
structure PapersEnv where
  now : Int
  cache : Cache
  net : OutboundReq → CallRes
  fetchByIds : List Int → List Paper
  standardPage : Option String → Option String → Int → Int → List Paper
  countTotal : Option String → Option String → Int
  searchPage : String → Int → Int → List Paper
  searchCount : String → Int

/-- An inbound `GET /papers` request.  `page`/`limit` are the `parseInt`
results of the query parameters (`none` = `NaN`); `authUser` is the
`userId` a valid bearer token in the `Authorization` header decodes to
(`none`: header absent or token invalid); `reqUser` is `req.user.userId`,
which only the `authenticateToken` middleware would set — that middleware
is not mounted on this route, so the route always sees `none` (the handler
instead decodes the header manually where it needs an identity). -/
structure ListReq where
  page : Option Int
  limit : Option Int
  fieldId : Option String
  search : Option String
  authUser : Option Int
  reqUser : Option Int

/-- Which SQL query the handler executed against the paper store. -/
inductive QueryKind
  | byIds (ids : List Int)
  | standardQ (fieldId search : Option String) (offset limit : Int)
deriving DecidableEq

/-- Observable outcome of one `GET /papers` run: HTTP status, response
envelope, cache afterwards, the detached logging tasks spawned (never
awaited by the response path), and the corpus query executed (`none` on a
cache hit and on the early end-of-feed return, which query nothing). -/
structure ListOut where
  status : Int
  resp : ListResponse
  cacheAfter : Cache
  background : List LogTask
  usedQuery : Option QueryKind

/-- The standard (fallback or search/filter) branch, lines 315-351 and
369-401: filtered offset page, separate count query, envelope with
`isRecommendation: false`, cache write. -/
def standardServe (env : PapersEnv) (fieldId search : Option String)
    (page limit offset : Int) (key : String) (cache1 : Cache)
    (bg : List LogTask) : ListOut :=
  let papers := env.standardPage fieldId search offset limit
  let total := env.countTotal fieldId search
  let resp : ListResponse :=
    { success := true, message := "Papers retrieved successfully",
      data := { papers := papers,
                pagination := { page := page, limit := limit, total := total,
                                pages := jsCeilDiv total limit },
                isRecommendation := some false } }
  { status := 200, resp := resp,
    cacheAfter := setCachedQuery cache1 key resp env.now,
    background := bg,
    usedQuery := some (.standardQ fieldId search offset limit) }

/-- The cache key the main listing route computes (lines 186-192):
`getCacheKey({ page, limit, fieldId, search, userId: req.user ? req.user.userId : 'anon' })`. -/
def listKeyOf (req : ListReq) : String :=
  listCacheKey (jsor req.page 1) (jsor req.limit 12) req.fieldId req.search
    (match req.reqUser with
     | some u => .num u
     | none => .str "anon")

/-- `router.get('/')` (lines 184-413).  Sequencing follows the source:
parse pagination (no bounds validation), cache lookup with early return on
a hit, detached search-log spawn on a truthy `search`, recommendation
attempt only when both `search` and `fieldId` are falsy, in-memory slice
of the ranked ids with the page-1 demotion / later-page early return, or
the standard filtered query, then reorder, count, envelope, cache write. -/
def papersListHandler (env : PapersEnv) (req : ListReq) : ListOut :=
  let page := jsor req.page 1
  let limit := jsor req.limit 12
  let offset := (page - 1) * limit
  let key := listKeyOf req
  let lookup := getCachedQuery env.now env.cache key
  match lookup.1 with
  | some r =>
    { status := 200, resp := r, cacheAfter := lookup.2, background := [],
      usedQuery := none }
  | none =>
    let bg : List LogTask :=
      if jsTruthyStr req.search then
        [{ userId := req.authUser, query := req.search.getD "" }]
      else []
    let recIds :=
      if !jsTruthyStr req.search && !jsTruthyStr req.fieldId then
        getRecommendations env.net req.authUser 50
      else []
    if recIds.length > 0 then
      let pagedIds := jsSlice recIds offset (offset + limit)
      if pagedIds.isEmpty then
        if page == 1 then
          -- `isRecommendation = false; // fallback`
          standardServe env req.fieldId req.search page limit offset key
            lookup.2 bg
        else
          -- end of the personalized feed: empty page, total = ranked length
          let resp : ListResponse :=
            { success := true, message := "Papers retrieved successfully",
              data := { papers := [],
                        pagination := { page := page, limit := limit,
                                        total := (recIds.length : Int),
                                        pages := jsCeilDiv recIds.length limit },
                        isRecommendation := none } }
          { status := 200, resp := resp,
            cacheAfter := setCachedQuery lookup.2 key resp env.now,
            background := bg, usedQuery := none }
      else
        let fetched := env.fetchByIds pagedIds
        let papers := reorderPapers pagedIds fetched
        let total : Int := recIds.length
        let resp : ListResponse :=
          { success := true, message := "Recommended papers retrieved",
            data := { papers := papers,
                      pagination := { page := page, limit := limit,
                                      total := total,
                                      pages := jsCeilDiv total limit },
                      isRecommendation := some true } }
        { status := 200, resp := resp,
          cacheAfter := setCachedQuery lookup.2 key resp env.now,
          background := bg, usedQuery := some (.byIds pagedIds) }
    else
      standardServe env req.fieldId req.search page limit offset key
        lookup.2 bg

/-- An inbound `GET /papers/search/query` request. -/
structure SearchReq where
  q : Option String
  page : Option Int
  limit : Option Int
  authUser : Option Int

/-- Outcome of one dedicated-search run; `resp = none` embeds the 400
error envelope (`data: null`), which carries no page. -/
structure SearchOut where
  status : Int
  resp : Option ListResponse
  cacheAfter : Cache
  background : List LogTask

/-- `router.get('/search/query')` (lines 415-553): 400 on a falsy `q`;
otherwise the detached log spawn happens BEFORE the cache lookup, so it
fires on hits and misses alike. -/
def searchQueryHandler (env : PapersEnv) (req : SearchReq) : SearchOut :=
  let page := jsor req.page 1
  let limit := jsor req.limit 12
  let offset := (page - 1) * limit
  if !jsTruthyStr req.q then
    { status := 400, resp := none, cacheAfter := env.cache, background := [] }
  else
    let q := req.q.getD ""
    let bg : List LogTask := [{ userId := req.authUser, query := q }]
    let key := searchCacheKey q page limit
    let lookup := getCachedQuery env.now env.cache key
    match lookup.1 with
    | some r =>
      { status := 200, resp := some r, cacheAfter := lookup.2,
        background := bg }
    | none =>
      let papers := env.searchPage q offset limit
      let total := env.searchCount q
      let resp : ListResponse :=
        { success := true, message := "Search completed successfully",
          data := { papers := papers,
                    pagination := { page := page, limit := limit,
                                    total := total,
                                    pages := jsCeilDiv total limit },
                    isRecommendation := none } }
      { status := 200, resp := some resp,
        cacheAfter := setCachedQuery lookup.2 key resp env.now,
        background := bg }

end Papers

namespace Papers

/-! ## Concrete collaborators used by the evaluated runs -/

/-- A recommender that ranks `[1, 2]` for user 7 and `[3, 4]` for user 8. -/
def netTwoUsers : OutboundReq → CallRes := fun r =>
  if r.url == recommendUrl (some 7) 50 then
    { ok := true, status := 200,
      body := .objRecs [{ paper_id := 1 }, { paper_id := 2 }] }
  else if r.url == recommendUrl (some 8) 50 then
    { ok := true, status := 200,
      body := .objRecs [{ paper_id := 3 }, { paper_id := 4 }] }
  else { ok := false, status := 500, body := .unparsable }

/-- A recommender call that fails outright. -/
def netDown : OutboundReq → CallRes := fun _ =>
  { ok := false, status := 500, body := .unparsable }

/-- A store in which every requested id resolves to a row. -/
def storeAllIds : List Int → List Paper := fun ids =>
  ids.map (fun i => { Paper_ID := i, payload := "row" })

def envC1 : PapersEnv :=
  { now := 1000, cache := [], net := netTwoUsers, fetchByIds := storeAllIds,
    standardPage := fun _ _ _ _ => [], countTotal := fun _ _ => 0,
    searchPage := fun _ _ _ => [], searchCount := fun _ => 0 }

/-- A bare listing request from authenticated user `u`: no query
parameters, a valid bearer token, and (as always on this route, which has
no auth middleware) `req.user` unset. -/
def reqC1 (u : Int) : ListReq :=
  { page := none, limit := none, fieldId := none, search := none,
    authUser := some u, reqUser := none }

/-- Claim C1, refuted on the code (code bug): the listing cache key is
built from `req.user`, which is never populated on this route, so it is
the same `'anon'` key for every requester.  Two personalized requests by
users 7 and 8 — whose fresh feeds differ ([1,2] vs [3,4]) — get the same
key, and user 8 is served user 7's cached personalized page. -/
theorem c1_personalized_cache_key_ignores_user :
    listKeyOf (reqC1 7) = listKeyOf (reqC1 8) ∧
    (papersListHandler envC1 (reqC1 7)).resp.data.isRecommendation = some true ∧
    (papersListHandler envC1 (reqC1 7)).resp.data.papers.map (·.Paper_ID) = [1, 2] ∧
    (papersListHandler envC1 (reqC1 8)).resp.data.papers.map (·.Paper_ID) = [3, 4] ∧
    (papersListHandler
        { envC1 with cache := (papersListHandler envC1 (reqC1 7)).cacheAfter }
        (reqC1 8)).resp
      = (papersListHandler envC1 (reqC1 7)).resp := by
  decide

end Papers

namespace Papers

def envC3 : PapersEnv :=
  { now := 1000, cache := [], net := netDown, fetchByIds := storeAllIds,
    standardPage := fun _ _ _ _ => [{ Paper_ID := 42, payload := "std" }],
    countTotal := fun _ _ => 1,
    searchPage := fun _ _ _ => [], searchCount := fun _ => 0 }

def reqC3 : ListReq :=
  { page := none, limit := none, fieldId := none, search := some "quantum",
    authUser := some 7, reqUser := none }

/-- Claim C3, counterexample: on the main listing route the cache lookup
returns before the detached search-log spawn, so the very same
search-carrying request spawns a logger task on its first (fresh) run but
spawns none when served from the cache. -/
theorem c3_counterexample_cache_hit_skips_logging :
    jsTruthyStr reqC3.search = true ∧
    (papersListHandler envC3 reqC3).background
      = [{ userId := some 7, query := "quantum" }] ∧
    (papersListHandler
        { envC3 with cache := (papersListHandler envC3 reqC3).cacheAfter }
        reqC3).resp = (papersListHandler envC3 reqC3).resp ∧
    (papersListHandler
        { envC3 with cache := (papersListHandler envC3 reqC3).cacheAfter }
        reqC3).background = [] := by
  decide

end Papers

namespace Papers

def envC4 : PapersEnv :=
  { now := 1000, cache := [], net := netDown, fetchByIds := storeAllIds,
    standardPage := fun _ _ _ _ => [{ Paper_ID := 42, payload := "std" }],
    countTotal := fun _ _ => 500,
    searchPage := fun _ _ _ => [], searchCount := fun _ => 0 }

/-- `GET /papers?search=x&page=1&limit=200`. -/
def reqC4a : ListReq :=
  { page := some 1, limit := some 200, fieldId := none, search := some "x",
    authUser := none, reqUser := none }

/-- `GET /papers?search=x&page=1&limit=0`. -/
def reqC4b : ListReq :=
  { page := some 1, limit := some 0, fieldId := none, search := some "x",
    authUser := none, reqUser := none }

/-- Claim C4, refuted on the code (code bug): the listing route performs
no pagination-bounds validation (unlike the sibling routes, which reject
`page < 1 || limit < 1 || limit > 100` with 400).  `limit=200` is served
as a 200 with the oversized limit used as-is, and `limit=0` (falsy after
`parseInt`) silently becomes the default 12 and is served rather than
rejected. -/
theorem c4_no_pagination_bounds_validation :
    (papersListHandler envC4 reqC4a).status = 200 ∧
    (papersListHandler envC4 reqC4a).resp.success = true ∧
    (papersListHandler envC4 reqC4a).resp.data.pagination.limit = 200 ∧
    (papersListHandler envC4 reqC4b).status = 200 ∧
    (papersListHandler envC4 reqC4b).resp.data.pagination.limit = 12 := by
  decide

end Papers

namespace Papers

theorem length_mapSet (m : List (String × α)) (k : String) (v : α) :
    (mapSet m k v).length =
      if m.any (fun e => e.1 == k) then m.length else m.length + 1 := by
  unfold mapSet
  split <;> simp

/-- Claim C9: a put never leaves more than 200 entries behind, and the put
that makes the count exceed 200 (a fresh key into a full cache) evicts
exactly the oldest-inserted entry — the head of the insertion-ordered
list — keeping everything else in order and appending the new entry. -/
theorem c9_cache_capacity_fifo :
    (∀ (c : Cache) (k : String) (d : ListResponse) (t : Int),
        c.length ≤ 200 → (setCachedQuery c k d t).length ≤ 200) ∧
    (∀ (c : Cache) (k : String) (d : ListResponse) (t : Int),
        c.length = 200 → mapGet c k = none →
        setCachedQuery c k d t = c.tail ++ [(k, { data := d, timestamp := t })]) := by
  constructor
  · intro c k d t h
    simp only [setCachedQuery]
    cases hb : c.any (fun e => e.1 == k) with
    | true =>
      have hlen : (mapSet c k { data := d, timestamp := t }).length = c.length := by
        rw [length_mapSet, if_pos hb]
      rw [if_neg (by rw [hlen]; omega), hlen]
      exact h
    | false =>
      have hb' := hb
      have hlen : (mapSet c k { data := d, timestamp := t }).length = c.length + 1 := by
        rw [length_mapSet, hb']
        simp
      by_cases h2 : c.length + 1 > 200
      · have h200 : c.length = 200 := by omega
        rw [if_pos (by rw [hlen]; omega)]
        have hset : mapSet c k ({ data := d, timestamp := t } : CacheEntry)
            = c ++ [(k, { data := d, timestamp := t })] := by
          unfold mapSet
          rw [hb']
          simp
        cases c with
        | nil => simp at h200
        | cons x xs =>
          rw [hset]
          simp only [List.cons_append, List.head?]
          unfold mapDelete
          rw [List.eraseP_cons_of_pos (by simp)]
          simp at h200
          simp [h200]
      · rw [if_neg (by rw [hlen]; omega), hlen]
        omega
  · intro c k d t h200 hfresh
    simp only [setCachedQuery]
    rw [mapSet_fresh c k { data := d, timestamp := t } hfresh]
    rw [if_pos (by simp [h200])]
    cases c with
    | nil => simp at h200
    | cons x xs =>
      simp only [List.cons_append, List.head?]
      unfold mapDelete
      rw [List.eraseP_cons_of_pos (by simp)]
      rfl

/-- A minimal response payload used to instantiate cache statements. -/
def respW : ListResponse :=
  { success := true, message := "w",
    data := { papers := [],
              pagination := { page := 1, limit := 12, total := 0, pages := 0 },
              isRecommendation := none } }

/-- Witness for C9 at a concrete full cache: 200 entries under key "a",
inserting fresh key "b" keeps the bound and evicts exactly the head. -/
theorem c9_cache_capacity_fifo_witness :
    (setCachedQuery (List.replicate 200 ("a", { data := respW, timestamp := 0 }))
        "b" respW 5).length ≤ 200 ∧
    setCachedQuery (List.replicate 200 ("a", { data := respW, timestamp := 0 }))
        "b" respW 5
      = (List.replicate 200 (("a", { data := respW, timestamp := 0 }) :
            String × CacheEntry)).tail ++ [("b", { data := respW, timestamp := 5 })] :=
  ⟨c9_cache_capacity_fifo.1 _ "b" respW 5 (le_of_eq (List.length_replicate 200 _)),
   c9_cache_capacity_fifo.2 _ "b" respW 5 (List.length_replicate 200 _) (by decide)⟩

end Papers

namespace Papers

/-- A run whose dedupe key is not in the map proceeds: it records `now`
under the key, is not marked skipped, places at least one outbound call,
and — when both sends fail — returns `ok = false` after exactly two
calls. -/
theorem logSearch_fresh_run (st : List (String × Int)) (now : Int)
    (u : Option Int) (q : String) (ua ip : Option String) (s1 s2 : CallRes)
    (hfresh : mapGet st (makeDedupeKey u q) = none) :
    (logSearchToRecommender st now u q ua ip s1 s2).state
        = mapSet st (makeDedupeKey u q) now ∧
    (logSearchToRecommender st now u q ua ip s1 s2).outcome.skipped = false ∧
    (logSearchToRecommender st now u q ua ip s1 s2).calls ≠ [] ∧
    (s1.ok = false → s2.ok = false →
      (logSearchToRecommender st now u q ua ip s1 s2).outcome.ok = false ∧
      (logSearchToRecommender st now u q ua ip s1 s2).calls.length = 2) := by
  simp only [logSearchToRecommender, hfresh]
  cases h1 : s1.ok <;> cases h2 : s2.ok <;> simp [h1, h2]

/-- A run whose dedupe key was recorded at a nonzero `last` within the
30s window returns immediately as skipped, with no outbound call and the
map untouched. -/
theorem logSearch_suppressed_run (st : List (String × Int)) (now : Int)
    (u : Option Int) (q : String) (ua ip : Option String) (s1 s2 : CallRes)
    (last : Int) (hlast : mapGet st (makeDedupeKey u q) = some last)
    (h0 : last ≠ 0) (hwin : now - last < 30000) :
    logSearchToRecommender st now u q ua ip s1 s2 =
      { outcome := { ok := true, skipped := true, retried := false },
        calls := [], state := st } := by
  simp only [logSearchToRecommender, hlast]
  have hc : (last != 0 && decide (now - last < 30000)) = true := by
    simp [h0, hwin]
  simp [hc]

/-- A run whose dedupe key was recorded outside the 30s window proceeds
and places at least one outbound call. -/
theorem logSearch_after_window_run (st : List (String × Int)) (now : Int)
    (u : Option Int) (q : String) (ua ip : Option String) (s1 s2 : CallRes)
    (last : Int) (hlast : mapGet st (makeDedupeKey u q) = some last)
    (hwin : 30000 ≤ now - last) :
    (logSearchToRecommender st now u q ua ip s1 s2).outcome.skipped = false ∧
    (logSearchToRecommender st now u q ua ip s1 s2).calls ≠ [] := by
  simp only [logSearchToRecommender, hlast]
  have hc : (last != 0 && decide (now - last < 30000)) = false := by
    have : decide (now - last < 30000) = false := by
      simp
      omega
    simp [this]
  simp only [hc]
  cases h1 : s1.ok <;> cases h2 : s2.ok <;> simp [h1, h2]

/-- Claim C8: for two `logSearch` calls with the same (user, query) pair,
the first of which finds no dedupe entry and runs at a positive clock, a
second call within 30s returns marked skipped with no outbound call — so
the pair performs exactly the first call's single (non-skipped) delivery
attempt — while a second call at or after 30s proceeds and attempts
delivery again. -/
theorem c8_dedupe_window (st : List (String × Int)) (now1 now2 : Int)
    (u : Option Int) (q : String) (ua ip ua2 ip2 : Option String)
    (s1 s2 s3 s4 : CallRes)
    (hfresh : mapGet st (makeDedupeKey u q) = none) (hpos : 0 < now1) :
    (now2 - now1 < 30000 →
      (logSearchToRecommender (logSearchToRecommender st now1 u q ua ip s1 s2).state
          now2 u q ua2 ip2 s3 s4).outcome.skipped = true ∧
      (logSearchToRecommender (logSearchToRecommender st now1 u q ua ip s1 s2).state
          now2 u q ua2 ip2 s3 s4).calls = [] ∧
      (logSearchToRecommender st now1 u q ua ip s1 s2).outcome.skipped = false) ∧
    (30000 ≤ now2 - now1 →
      (logSearchToRecommender (logSearchToRecommender st now1 u q ua ip s1 s2).state
          now2 u q ua2 ip2 s3 s4).outcome.skipped = false ∧
      (logSearchToRecommender (logSearchToRecommender st now1 u q ua ip s1 s2).state
          now2 u q ua2 ip2 s3 s4).calls ≠ []) := by
  obtain ⟨hstate, hskip, hcalls, _⟩ := logSearch_fresh_run st now1 u q ua ip s1 s2 hfresh
  have hget : mapGet (logSearchToRecommender st now1 u q ua ip s1 s2).state
      (makeDedupeKey u q) = some now1 := by
    rw [hstate]
    exact mapGet_mapSet_fresh st _ now1 hfresh
  constructor
  · intro hwin
    have h2 := logSearch_suppressed_run _ now2 u q ua2 ip2 s3 s4 now1 hget
      (by omega) (by omega)
    rw [h2]
    exact ⟨rfl, rfl, hskip⟩
  · intro hwin
    exact logSearch_after_window_run _ now2 u q ua2 ip2 s3 s4 now1 hget (by omega)

/-- A sink interaction that always fails. -/
def sinkFail : CallRes := { ok := false, status := 503, body := .unparsable }

/-- Witness for C8 at a concrete pair: user 7, query "q", first call at
t=100 on an empty map, second at t=200 (within 30s). -/
theorem c8_dedupe_window_witness :
    (logSearchToRecommender
        (logSearchToRecommender [] 100 (some 7) "q" none none sinkFail sinkFail).state
        200 (some 7) "q" none none sinkFail sinkFail).outcome.skipped = true ∧
    (logSearchToRecommender
        (logSearchToRecommender [] 100 (some 7) "q" none none sinkFail sinkFail).state
        200 (some 7) "q" none none sinkFail sinkFail).calls = [] ∧
    (logSearchToRecommender [] 100 (some 7) "q" none none sinkFail sinkFail).outcome.skipped
      = false :=
  (c8_dedupe_window [] 100 200 (some 7) "q" none none none none
    sinkFail sinkFail sinkFail sinkFail rfl (by decide)).1 (by decide)

/-- Claim C10: a non-suppressed `logSearchToRecommender` records its
dedupe timestamp before attempting delivery, so even when both the send
and the retry fail (outcome not ok, two outbound calls), the timestamp is
in the map and an identical call within the next 30s is skipped with no
outbound call. -/
theorem c10_dedupe_recorded_before_delivery (st : List (String × Int))
    (now1 now2 : Int) (u : Option Int) (q : String)
    (ua ip ua2 ip2 : Option String) (s1 s2 s3 s4 : CallRes)
    (hfresh : mapGet st (makeDedupeKey u q) = none) (hpos : 0 < now1)
    (hf1 : s1.ok = false) (hf2 : s2.ok = false)
    (hwin : now2 - now1 < 30000) :
    (logSearchToRecommender st now1 u q ua ip s1 s2).outcome.ok = false ∧
    (logSearchToRecommender st now1 u q ua ip s1 s2).calls.length = 2 ∧
    mapGet (logSearchToRecommender st now1 u q ua ip s1 s2).state
        (makeDedupeKey u q) = some now1 ∧
    (logSearchToRecommender (logSearchToRecommender st now1 u q ua ip s1 s2).state
        now2 u q ua2 ip2 s3 s4).outcome.skipped = true ∧
    (logSearchToRecommender (logSearchToRecommender st now1 u q ua ip s1 s2).state
        now2 u q ua2 ip2 s3 s4).calls = [] := by
  obtain ⟨hstate, hskip, hcalls, hfail⟩ := logSearch_fresh_run st now1 u q ua ip s1 s2 hfresh
  obtain ⟨hok, hlen⟩ := hfail hf1 hf2
  have hget : mapGet (logSearchToRecommender st now1 u q ua ip s1 s2).state
      (makeDedupeKey u q) = some now1 := by
    rw [hstate]
    exact mapGet_mapSet_fresh st _ now1 hfresh
  have h2 := logSearch_suppressed_run _ now2 u q ua2 ip2 s3 s4 now1 hget
    (by omega) (by omega)
  rw [h2]
  exact ⟨hok, hlen, hget, rfl, rfl⟩

/-- Witness for C10: both delivery attempts of the first call fail, yet
the identical call 50ms later is skipped. -/
theorem c10_dedupe_recorded_before_delivery_witness :
    (logSearchToRecommender [] 100 (some 7) "q2" none none sinkFail sinkFail).outcome.ok
        = false ∧
    (logSearchToRecommender [] 100 (some 7) "q2" none none sinkFail sinkFail).calls.length
        = 2 ∧
    mapGet (logSearchToRecommender [] 100 (some 7) "q2" none none sinkFail sinkFail).state
        (makeDedupeKey (some 7) "q2") = some 100 ∧
    (logSearchToRecommender
        (logSearchToRecommender [] 100 (some 7) "q2" none none sinkFail sinkFail).state
        150 (some 7) "q2" none none sinkFail sinkFail).outcome.skipped = true ∧
    (logSearchToRecommender
        (logSearchToRecommender [] 100 (some 7) "q2" none none sinkFail sinkFail).state
        150 (some 7) "q2" none none sinkFail sinkFail).calls = [] :=
  c10_dedupe_recorded_before_delivery [] 100 150 (some 7) "q2" none none none none
    sinkFail sinkFail sinkFail sinkFail rfl (by decide) rfl rfl (by decide)

end Papers

namespace Papers

/-- Claim C7: `getRecommendations` issues a single GET with a 5s timeout,
and on any failure — transport error or non-success status (`ok = false`),
unparsable payload, or payload without recommendations — returns the
empty list; in every case the result is the ordered list of `paper_id`s
of a successfully parsed payload, or empty. -/
theorem c7_recommendations_fail_open (net : OutboundReq → CallRes)
    (u : Option Int) (l : Int) :
    (callFetchRequest (recommendUrl u l)
        { method := some .get, timeout := some 5000 }).timeout = 5000 ∧
    (callFetchRequest (recommendUrl u l)
        { method := some .get, timeout := some 5000 }).method = .get ∧
    ((net (callFetchRequest (recommendUrl u l)
        { method := some .get, timeout := some 5000 })).ok = false →
      getRecommendations net u l = []) ∧
    ((net (callFetchRequest (recommendUrl u l)
        { method := some .get, timeout := some 5000 })).body = .unparsable →
      getRecommendations net u l = []) ∧
    ((net (callFetchRequest (recommendUrl u l)
        { method := some .get, timeout := some 5000 })).body = .objNoRecs →
      getRecommendations net u l = []) ∧
    (getRecommendations net u l = [] ∨
      ∃ entries,
        (net (callFetchRequest (recommendUrl u l)
            { method := some .get, timeout := some 5000 })).ok = true ∧
        (net (callFetchRequest (recommendUrl u l)
            { method := some .get, timeout := some 5000 })).body = .objRecs entries ∧
        getRecommendations net u l = entries.map (·.paper_id)) := by
  refine ⟨rfl, rfl, ?_, ?_, ?_, ?_⟩
  · intro hok
    simp [getRecommendations, hok]
  · intro hbody
    simp only [getRecommendations, hbody]
    cases hok : (net (callFetchRequest (recommendUrl u l)
        { method := some .get, timeout := some 5000 })).ok <;> simp [hbody]
  · intro hbody
    simp only [getRecommendations, hbody]
    cases hok : (net (callFetchRequest (recommendUrl u l)
        { method := some .get, timeout := some 5000 })).ok <;> simp [hbody]
  · cases hok : (net (callFetchRequest (recommendUrl u l)
        { method := some .get, timeout := some 5000 })).ok with
    | false => left; simp [getRecommendations, hok]
    | true =>
      cases hbody : (net (callFetchRequest (recommendUrl u l)
          { method := some .get, timeout := some 5000 })).body with
      | unparsable => left; simp [getRecommendations, hok, hbody]
      | objNoRecs => left; simp [getRecommendations, hok, hbody]
      | objRecs entries =>
        right
        exact ⟨entries, rfl, rfl, by simp [getRecommendations, hok, hbody]⟩

/-- Witness for C7 at a concretely failing recommender: the result is
empty and the issued call carried the 5s timeout. -/
theorem c7_recommendations_fail_open_witness :
    (callFetchRequest (recommendUrl (some 7) 50)
        { method := some .get, timeout := some 5000 }).timeout = 5000 ∧
    getRecommendations netDown (some 7) 50 = [] :=
  ⟨(c7_recommendations_fail_open netDown (some 7) 50).1,
   (c7_recommendations_fail_open netDown (some 7) 50).2.2.1 rfl⟩

end Papers

namespace Papers

theorem paperMapGet_eq_some (papers : List Paper) (i : Int) (p : Paper)
    (h : paperMapGet papers i = some p) : p.Paper_ID = i ∧ p ∈ papers := by
  unfold paperMapGet at h
  have hp := List.find?_some h
  have hm := List.mem_of_find?_eq_some h
  exact ⟨by simpa using hp, by simpa using hm⟩

theorem paperMapGet_isSome_iff (papers : List Paper) (i : Int) :
    (paperMapGet papers i).isSome = papers.any (fun p => p.Paper_ID == i) := by
  unfold paperMapGet
  rw [← List.any_reverse]
  cases hf : papers.reverse.find? (fun p => p.Paper_ID == i) with
  | none =>
    have := List.find?_eq_none.mp hf
    simp only [Option.isSome_none]
    symm
    simp only [List.any_eq_false]
    intro x hx
    simpa using this x hx
  | some p =>
    have hp := List.find?_some hf
    have hm := List.mem_of_find?_eq_some hf
    simp only [Option.isSome_some]
    symm
    simp only [List.any_eq_true]
    exact ⟨p, hm, hp⟩

/-- Claim C5: the composed personalized page is the fetched records
re-sorted into exactly the order of the requested id slice — its id
sequence is the slice filtered to the ids that resolved, every listed
record is one of the fetched records — and the spec's concrete cases hold:
records fetched as [7,3,9] for the ranked slice [3,9,7] list as [3,9,7],
and with id 9 unresolved they list as [3,7]. -/
theorem c5_reorder_matches_slice_order (pagedIds : List Int) (papers : List Paper) :
    ((reorderPapers pagedIds papers).map (·.Paper_ID)
        = pagedIds.filter (fun i => papers.any (fun p => p.Paper_ID == i))) ∧
    (∀ p ∈ reorderPapers pagedIds papers, p ∈ papers) ∧
    (reorderPapers [3, 9, 7]
        [{ Paper_ID := 7, payload := "r7" }, { Paper_ID := 3, payload := "r3" },
         { Paper_ID := 9, payload := "r9" }]
      = [{ Paper_ID := 3, payload := "r3" }, { Paper_ID := 9, payload := "r9" },
         { Paper_ID := 7, payload := "r7" }]) ∧
    (reorderPapers [3, 9, 7]
        [{ Paper_ID := 7, payload := "r7" }, { Paper_ID := 3, payload := "r3" }]
      = [{ Paper_ID := 3, payload := "r3" }, { Paper_ID := 7, payload := "r7" }]) := by
  refine ⟨?_, ?_, by decide, by decide⟩
  · induction pagedIds with
    | nil => rfl
    | cons i rest ih =>
      simp only [reorderPapers, List.filterMap_cons, List.filter_cons] at ih ⊢
      cases hp : paperMapGet papers i with
      | none =>
        have hs : papers.any (fun p => p.Paper_ID == i) = false := by
          rw [← paperMapGet_isSome_iff, hp]
          rfl
        rw [hs]
        simpa using ih
      | some p =>
        have hs : papers.any (fun p => p.Paper_ID == i) = true := by
          rw [← paperMapGet_isSome_iff, hp]
          rfl
        rw [hs]
        obtain ⟨hid, _⟩ := paperMapGet_eq_some papers i p hp
        simp only [List.map_cons, hid]
        rw [ih]
        simp
  · intro p hp
    obtain ⟨i, _, hf⟩ := List.mem_filterMap.mp hp
    exact (paperMapGet_eq_some papers i p hf).2

/-- Witness for C5: the general reordering law evaluated at the spec's
concrete slice and fetch order. -/
theorem c5_reorder_matches_slice_order_witness :
    (reorderPapers [3, 9, 7]
        [{ Paper_ID := 7, payload := "r7" }, { Paper_ID := 3, payload := "r3" },
         { Paper_ID := 9, payload := "r9" }]).map (·.Paper_ID)
      = List.filter
          (fun i =>
            List.any
              ([{ Paper_ID := 7, payload := "r7" }, { Paper_ID := 3, payload := "r3" },
                { Paper_ID := 9, payload := "r9" }] : List Paper)
              (fun p => p.Paper_ID == i))
          [3, 9, 7] :=
  (c5_reorder_matches_slice_order [3, 9, 7]
    [{ Paper_ID := 7, payload := "r7" }, { Paper_ID := 3, payload := "r3" },
     { Paper_ID := 9, payload := "r9" }]).1

end Papers

namespace Papers

def netRank45 : OutboundReq → CallRes := fun _ =>
  { ok := true, status := 200,
    body := .objRecs ((List.range 45).map (fun i => { paper_id := (i : Int) + 1 })) }

def envC2 : PapersEnv :=
  { now := 1000, cache := [], net := netRank45, fetchByIds := storeAllIds,
    standardPage := fun _ _ _ _ => [], countTotal := fun _ _ => 0,
    searchPage := fun _ _ _ => [], searchCount := fun _ => 0 }

def reqC2 (p : Int) : ListReq :=
  { page := some p, limit := some 20, fieldId := none, search := none,
    authUser := some 7, reqUser := none }

/-- Claim C2: for a personalized-mode request over a non-empty ranked id
list (no search/filter, fresh cache), an empty in-memory slice at page 1
demotes the request to the standard query, while an empty slice at a page
greater than 1 returns an empty page immediately with `total` equal to the
ranked-list length and no corpus query; concretely, with 45 ranked ids and
limit 20, page 1 serves ids 1..20 in ranking order, page 3 serves ids
41..45, and page 4 serves an empty list with total 45. -/
theorem c2_personalized_pagination (env : PapersEnv) (req : ListReq)
    (hcache : env.cache = [])
    (hs : jsTruthyStr req.search = false)
    (hf : jsTruthyStr req.fieldId = false)
    (hrec : getRecommendations env.net req.authUser 50 ≠ []) :
    (jsSlice (getRecommendations env.net req.authUser 50)
        ((jsor req.page 1 - 1) * jsor req.limit 12)
        ((jsor req.page 1 - 1) * jsor req.limit 12 + jsor req.limit 12) = [] →
      jsor req.page 1 = 1 →
      (papersListHandler env req).usedQuery
        = some (.standardQ req.fieldId req.search
            ((jsor req.page 1 - 1) * jsor req.limit 12) (jsor req.limit 12)) ∧
      (papersListHandler env req).resp.data.isRecommendation = some false) ∧
    (jsSlice (getRecommendations env.net req.authUser 50)
        ((jsor req.page 1 - 1) * jsor req.limit 12)
        ((jsor req.page 1 - 1) * jsor req.limit 12 + jsor req.limit 12) = [] →
      1 < jsor req.page 1 →
      (papersListHandler env req).resp.data.papers = [] ∧
      (papersListHandler env req).resp.data.pagination.total
        = ((getRecommendations env.net req.authUser 50).length : Int) ∧
      (papersListHandler env req).usedQuery = none) ∧
    (papersListHandler envC2 (reqC2 1)).resp.data.papers.map (·.Paper_ID)
        = (List.range 20).map (fun i : Nat => (i : Int) + 1) ∧
    (papersListHandler envC2 (reqC2 1)).resp.data.isRecommendation = some true ∧
    (papersListHandler envC2 (reqC2 3)).resp.data.papers.map (·.Paper_ID)
        = (List.range 5).map (fun i : Nat => (i : Int) + 41) ∧
    (papersListHandler envC2 (reqC2 4)).resp.data.papers = [] ∧
    (papersListHandler envC2 (reqC2 4)).resp.data.pagination.total = 45 := by
  have hlen : 0 < (getRecommendations env.net req.authUser 50).length :=
    List.length_pos.mpr hrec
  refine ⟨?_, ?_, by decide, by decide, by decide, by decide, by decide⟩
  · intro hslice hpage
    rw [hpage] at hslice
    simp only [papersListHandler, hcache, getCachedQuery, mapGet, List.find?,
      Option.map_none', hs, hf, Bool.not_false, Bool.and_self, if_true,
      if_pos hlen, Bool.false_eq_true, if_false, hpage]
    rw [hslice]
    simp [standardServe]
  · intro hslice hpage
    have hne : (jsor req.page 1 == (1 : Int)) = false := by
      simp only [beq_eq_false_iff_ne, ne_eq]
      omega
    simp only [papersListHandler, hcache, getCachedQuery, mapGet, List.find?,
      Option.map_none', hs, hf, Bool.not_false, Bool.and_self, if_true,
      if_pos hlen, Bool.false_eq_true, if_false, hne]
    rw [hslice]
    simp

end Papers

namespace Papers

/-- Witness for C2 at the spec's concrete instance: ranked list of length
45, limit 20, page 4 — empty page, total 45 (= ranked length), no query. -/
theorem c2_personalized_pagination_witness :
    (papersListHandler envC2 (reqC2 4)).resp.data.papers = [] ∧
    (papersListHandler envC2 (reqC2 4)).resp.data.pagination.total
      = ((getRecommendations envC2.net (reqC2 4).authUser 50).length : Int) ∧
    (papersListHandler envC2 (reqC2 4)).usedQuery = none :=
  (c2_personalized_pagination envC2 (reqC2 4) rfl rfl rfl (by decide)).2.1
    (by decide) (by decide)

end Papers

namespace Papers

theorem jsSlice_zero_start_nonempty (l : List α) (limit : Int)
    (hne : l ≠ []) (hl : 1 ≤ limit) : jsSlice l 0 limit ≠ [] := by
  have hlen : 1 ≤ (l.length : Int) := by
    have := List.length_pos.mpr hne
    omega
  simp only [jsSlice]
  have h1 : ¬ ((0 : Int) < 0) := lt_irrefl 0
  have h2 : ¬ (limit < 0) := by omega
  rw [if_neg h1, if_neg h2]
  intro hcon
  rw [List.take_eq_nil_iff] at hcon
  have hm : min (0 : Int) (l.length : Int) = 0 := by omega
  rcases hcon with hc | hc
  · have hm2 : 1 ≤ min limit (l.length : Int) := by omega
    rw [hm] at hc
    omega
  · rw [hm] at hc
    simp at hc
    exact hne hc

/-- Claim C6: with sane pagination and a fresh cache, a request carrying a
(truthy) search term or field filter runs the standard filtered query with
`isRecommendation: false`; a request with neither runs the standard query
exactly when the recommendation fetch returns an empty id list, in which
case the response has `isRecommendation: false` and lists the standard
chronological/filtered page. -/
theorem c6_mode_selection (env : PapersEnv) (req : ListReq)
    (hcache : env.cache = [])
    (hp : 1 ≤ jsor req.page 1) (hl : 1 ≤ jsor req.limit 12) :
    ((jsTruthyStr req.search = true ∨ jsTruthyStr req.fieldId = true) →
      (papersListHandler env req).usedQuery
        = some (.standardQ req.fieldId req.search
            ((jsor req.page 1 - 1) * jsor req.limit 12) (jsor req.limit 12)) ∧
      (papersListHandler env req).resp.data.isRecommendation = some false) ∧
    (jsTruthyStr req.search = false → jsTruthyStr req.fieldId = false →
      (((papersListHandler env req).usedQuery
          = some (.standardQ req.fieldId req.search
              ((jsor req.page 1 - 1) * jsor req.limit 12) (jsor req.limit 12)))
        ↔ getRecommendations env.net req.authUser 50 = []) ∧
      (getRecommendations env.net req.authUser 50 = [] →
        (papersListHandler env req).resp.data.isRecommendation = some false ∧
        (papersListHandler env req).resp.data.papers
          = env.standardPage req.fieldId req.search
              ((jsor req.page 1 - 1) * jsor req.limit 12) (jsor req.limit 12))) := by
  constructor
  · intro hor
    rcases hor with hs | hf
    · simp only [papersListHandler, hcache, getCachedQuery, mapGet, List.find?,
        Option.map_none', hs, Bool.not_true, Bool.false_and, Bool.false_eq_true,
        if_false]
      simp [standardServe]
    · simp only [papersListHandler, hcache, getCachedQuery, mapGet, List.find?,
        Option.map_none', hf, Bool.not_true, Bool.and_false, Bool.false_eq_true,
        if_false]
      simp [standardServe]
  · intro hs hf
    constructor
    · rcases eq_or_ne (getRecommendations env.net req.authUser 50) [] with hrec | hrec
      · refine iff_of_true ?_ hrec
        simp only [papersListHandler, hcache, getCachedQuery, mapGet, List.find?,
          Option.map_none', hs, hf, Bool.not_false, Bool.and_self, if_true, hrec,
          List.length_nil, lt_irrefl, Bool.false_eq_true, if_false]
        simp [standardServe]
      · refine iff_of_false ?_ hrec
        have hlen : 0 < (getRecommendations env.net req.authUser 50).length :=
          List.length_pos.mpr hrec
        rcases eq_or_lt_of_le hp with hpage | hpage
        · have hpage' : jsor req.page 1 = 1 := hpage.symm
          have hnon : jsSlice (getRecommendations env.net req.authUser 50)
              (((1 : Int) - 1) * jsor req.limit 12)
              (((1 : Int) - 1) * jsor req.limit 12 + jsor req.limit 12) ≠ [] := by
            have h01 : ((1 : Int) - 1) * jsor req.limit 12 = 0 := by ring
            rw [h01, zero_add]
            exact jsSlice_zero_start_nonempty _ _ hrec hl
          simp only [papersListHandler, hcache, getCachedQuery, mapGet, List.find?,
            Option.map_none', hs, hf, Bool.not_false, Bool.and_self, if_true,
            if_pos hlen, Bool.false_eq_true, if_false, hpage']
          intro heq
          have hbe : (jsSlice (getRecommendations env.net req.authUser 50)
              (((1 : Int) - 1) * jsor req.limit 12)
              (((1 : Int) - 1) * jsor req.limit 12 + jsor req.limit 12)).isEmpty
                = false := by simpa using hnon
          simp only [hbe, Bool.false_eq_true, if_false] at heq
          simp at heq
        · rcases eq_or_ne (jsSlice (getRecommendations env.net req.authUser 50)
              ((jsor req.page 1 - 1) * jsor req.limit 12)
              ((jsor req.page 1 - 1) * jsor req.limit 12 + jsor req.limit 12)) []
            with hsl | hsl
          · have hne1 : (jsor req.page 1 == (1 : Int)) = false := by
              simp only [beq_eq_false_iff_ne, ne_eq]
              omega
            simp only [papersListHandler, hcache, getCachedQuery, mapGet,
              List.find?, Option.map_none', hs, hf, Bool.not_false, Bool.and_self,
              if_true, if_pos hlen, Bool.false_eq_true, if_false, hne1]
            rw [hsl]
            simp
          · simp only [papersListHandler, hcache, getCachedQuery, mapGet,
              List.find?, Option.map_none', hs, hf, Bool.not_false, Bool.and_self,
              if_true, if_pos hlen, Bool.false_eq_true, if_false]
            intro heq
            have hbe : (jsSlice (getRecommendations env.net req.authUser 50)
                ((jsor req.page 1 - 1) * jsor req.limit 12)
                ((jsor req.page 1 - 1) * jsor req.limit 12 + jsor req.limit 12)).isEmpty
                  = false := by simpa using hsl
            simp only [hbe, Bool.false_eq_true, if_false] at heq
            simp at heq
    · intro hrec
      simp only [papersListHandler, hcache, getCachedQuery, mapGet, List.find?,
        Option.map_none', hs, hf, Bool.not_false, Bool.and_self, if_true, hrec,
        List.length_nil, lt_irrefl, Bool.false_eq_true, if_false]
      simp [standardServe]

end Papers

namespace Papers

/-- A bare anonymous listing request (no parameters, no credentials). -/
def reqC6 : ListReq :=
  { page := none, limit := none, fieldId := none, search := none,
    authUser := none, reqUser := none }

/-- Witness for C6: with the recommender down (empty id list) and no
search/filter, the response is the standard page with the flag false. -/
theorem c6_mode_selection_witness :
    (papersListHandler envC4 reqC6).resp.data.isRecommendation = some false ∧
    (papersListHandler envC4 reqC6).resp.data.papers
      = envC4.standardPage reqC6.fieldId reqC6.search
          ((jsor reqC6.page 1 - 1) * jsor reqC6.limit 12) (jsor reqC6.limit 12) :=
  ((c6_mode_selection envC4 reqC6 rfl (by decide) (by decide)).2 rfl rfl).2 (by decide)

end Papers

namespace Papers

/-- Claim C3 as amended: a search-carrying listing request spawns the
search logger as a detached background task (never awaited by the response
path) when the main endpoint's cache lookup misses; when served from that
cache it spawns none; the dedicated search endpoint spawns it regardless
of cache state. -/
theorem c3_amended_detached_logging (env : PapersEnv) (req : ListReq)
    (sreq : SearchReq) :
    (env.cache = [] → jsTruthyStr req.search = true →
      (papersListHandler env req).background
        = [{ userId := req.authUser, query := req.search.getD "" }]) ∧
    (∀ r, (getCachedQuery env.now env.cache (listKeyOf req)).1 = some r →
      (papersListHandler env req).background = []) ∧
    (jsTruthyStr sreq.q = true →
      (searchQueryHandler env sreq).background
        = [{ userId := sreq.authUser, query := sreq.q.getD "" }]) := by
  refine ⟨?_, ?_, ?_⟩
  · intro hcache hs
    simp only [papersListHandler, hcache, getCachedQuery, mapGet, List.find?,
      Option.map_none', hs, if_true]
    repeat' split
    all_goals simp [standardServe]
  · intro r hr
    simp only [papersListHandler, hr]
  · intro hq
    simp only [searchQueryHandler, hq, Bool.not_true, Bool.false_eq_true,
      if_false]
    cases hl : (getCachedQuery env.now env.cache
        (searchCacheKey (sreq.q.getD "") (jsor sreq.page 1)
          (jsor sreq.limit 12))).1 <;> simp [hl]

end Papers

namespace Papers

def sreqC3 : SearchReq :=
  { q := some "neural", page := none, limit := none, authUser := none }

/-- Witness for the amended C3: a fresh search-carrying run of each
endpoint spawns exactly its detached log task. -/
theorem c3_amended_detached_logging_witness :
    (papersListHandler envC3 reqC3).background
        = [{ userId := reqC3.authUser, query := reqC3.search.getD "" }] ∧
    (searchQueryHandler envC3 sreqC3).background
        = [{ userId := sreqC3.authUser, query := sreqC3.q.getD "" }] :=
  ⟨(c3_amended_detached_logging envC3 reqC3 sreqC3).1 rfl rfl,
   (c3_amended_detached_logging envC3 reqC3 sreqC3).2.2 rfl⟩

end Papers
